import Mathlib

/-!
Verification of the adarank learning-to-rank library (marcosfpr/adarank).

The development shallowly embeds the core data model and the AdaRank
training loop.  Rust `f32` values are modelled over an arbitrary
`LinearOrderedField K` (instantiated with `ℚ` for executable witnesses and
with `ℝ` when the transcendental functions `exp`/`log10` matter); the
transcendental functions themselves are passed as explicit function
parameters (`expf`, `log10f`) and instantiated with `Real.exp` and
`Real.logb 10` where a concrete run is evaluated.  Fallible Rust functions
returning `Result` are modelled with `Except`; a Rust panic is modelled as
`Option.none`.
-/

namespace Adarank

/-- Error taxonomy of the library, from `src/error.rs` (`LtrError`). -/
inductive LtrError where
  | FeatureIndexOutOfBounds (index : Nat)
  | RankListIndexOutOfBounds (index : Nat)
  | InvalidDataPoint (msg : String)
  | EvaluationError (msg : String)
  | ParseError (msg : String)
  | IOError (msg : String)
  | NoRankers
  deriving DecidableEq, Repr

instance instDecEqExcept {ε α : Type} [DecidableEq ε] [DecidableEq α] :
    DecidableEq (Except ε α) := fun a b =>
  match a, b with
  | .error e₁, .error e₂ =>
    if h : e₁ = e₂ then .isTrue (by rw [h]) else .isFalse (fun hc => h (by injection hc))
  | .error _, .ok _ => .isFalse (fun hc => by injection hc)
  | .ok _, .error _ => .isFalse (fun hc => by injection hc)
  | .ok a₁, .ok a₂ =>
    if h : a₁ = a₂ then .isTrue (by rw [h]) else .isFalse (fun hc => h (by injection hc))

/-- A single training instance, from `src/memory_system/elements/datapoint.rs`
(`DataPoint`): a `u8` label, a `u64` query id, a vector of `f32` features
(modelled over the field `K`) and an optional description. -/
structure DataPoint (K : Type) where
  label : Nat
  query_id : Nat
  features : List K
  description : Option String
  deriving DecidableEq, Repr

instance {K : Type} : Inhabited (DataPoint K) := ⟨⟨0, 0, [], none⟩⟩

variable {K : Type} [LinearOrderedField K]

/-- Rust `DataPoint::get_feature` (datapoint.rs lines 116-121): feature indices are
1-based; index `0` or an index beyond the feature count is rejected with
`FeatureIndexOutOfBounds`, and a valid index `i` reads `features[i - 1]`. -/
def DataPoint.get_feature (dp : DataPoint K) (index : Nat) : Except LtrError K :=
  if index = 0 ∨ index > dp.features.length then
    .error (.FeatureIndexOutOfBounds index)
  else
    .ok (dp.features.getD (index - 1) 0)

/-- Rust `DataPoint::set_feature` (datapoint.rs lines 174-181).  The source only
checks `index > self.features.len()`; when `index = 0` the subsequent write to
`self.features[index - 1]` underflows the `usize` subtraction and panics, which
is modelled as `none`.  A surfaced `LtrError` or a successful update are
wrapped in `some`. -/
def DataPoint.set_feature (dp : DataPoint K) (index : Nat) (feature : K) :
    Option (Except LtrError (DataPoint K)) :=
  if index > dp.features.length then
    some (.error (.FeatureIndexOutOfBounds index))
  else if index = 0 then
    none
  else
    some (.ok { dp with features := dp.features.set (index - 1) feature })

/-- A ranked list is an ordered collection of data points for one query
(`src/memory_system/elements/ranklist.rs`).  The `RefCell` interior
mutability of the source is irrelevant to the verified operations, so the
list of data points is used directly. -/
abbrev RankList (K : Type) := List (DataPoint K)

/-- Rust `RankList::get` (ranklist.rs lines 82-88): an index below the length reads
the data point, anything else is `RankListIndexOutOfBounds`. -/
def RankList.get (rl : RankList K) (index : Nat) : Except LtrError (DataPoint K) :=
  if index < rl.length then
    .ok (rl.getD index default)
  else
    .error (.RankListIndexOutOfBounds index)

/-- Rust `RankList::permute` (ranklist.rs lines 140-150): walk the permutation
vector, pushing the data point at each listed index onto a fresh vector; the
first index not present in the list aborts with `RankListIndexOutOfBounds`.
Note the source checks only that each entry is in bounds (via `Vec::get`),
not that the vector is a bijection. -/
def RankList.permute (rl : RankList K) : List Nat → Except LtrError (RankList K)
  | [] => .ok []
  | i :: rest =>
    match rl.get? i with
    | some dp => (RankList.permute rl rest).map (fun tail => dp :: tail)
    | none => .error (.RankListIndexOutOfBounds i)

/-- Accumulating loop of `MAP::evaluate_ranklist` (`src/eval/map.rs` lines
23-35): `i` is the 0-based position, the pair carries
`(num_relevant_docs, average_precision)`.  The source reads each position
with `ranklist.get(i)` for `i < len`, which never fails, so the `Err`/`break`
arm is unreachable and the loop is a plain structural recursion. -/
def MAP.loop : List (DataPoint K) → Nat → Nat → K → Nat × K
  | [], _, num_relevant_docs, average_precision =>
    (num_relevant_docs, average_precision)
  | dp :: rest, i, num_relevant_docs, average_precision =>
    if dp.label > 0 then
      MAP.loop rest (i + 1) (num_relevant_docs + 1)
        (average_precision + ((num_relevant_docs + 1 : Nat) : K) / ((i : K) + 1))
    else
      MAP.loop rest (i + 1) num_relevant_docs average_precision

/-- Rust `MAP::evaluate_ranklist` (map.rs lines 20-40): relevant items are those
with `label > 0`; each relevant item at 0-based position `i` contributes
`num_relevant_so_far / (i + 1)`; the accumulated sum is divided by the total
number of relevant documents, or the score is `0` when none are relevant. -/
def MAP.evaluate_ranklist (rl : RankList K) : K :=
  let r := MAP.loop rl 0 0 0
  if r.1 = 0 then 0 else r.2 / (r.1 : K)

/-- Message of the evaluation error raised on an empty dataset
(`src/eval/mod.rs` line 44). -/
def empty_dataset_msg : String := "Error in Evaluator::evaluate_dataset: the dataset is empty."

/-- Rust `Evaluator::evaluate_dataset` (eval/mod.rs lines 41-52), generic over the
trait object `evaluate_ranklist` (the `scorer` parameter): an empty dataset is
an `EvaluationError`; otherwise the per-list scores are accumulated in order
and divided by the number of lists. -/
def evaluate_dataset (scorer : RankList K → K) (dataset : List (RankList K)) :
    Except LtrError K :=
  if dataset.isEmpty then
    .error (.EvaluationError empty_dataset_msg)
  else
    .ok ((dataset.foldl (fun score ranklist => score + scorer ranklist) 0) / (dataset.length : K))

/-- Rust `Ranker::rank` (`src/ranker.rs` lines 32-49): every data point is scored
with `predict`, and the pairs `(index, score)` are sorted descending by score
with Rust's stable `sort_by`; the resulting index permutation applied to the
list is exactly the stable descending sort of the data points by their
predicted score, which is what this definition produces (stable sorting by a
total preorder has a unique result, here realised by insertion sort). -/
def Ranker.rank (predict : DataPoint K → K) (ranklist : RankList K) : RankList K :=
  List.insertionSort (fun a b => predict b ≤ predict a) ranklist

/-- Rust `WeakRanker::predict` (`src/ensemble/weak.rs` lines 28-35): the raw value
of the designated feature, or `0.0` when the feature lookup fails. -/
def WeakRanker.predict (feature_id : Nat) (dp : DataPoint K) : K :=
  match dp.get_feature feature_id with
  | .ok v => v
  | .error _ => 0

/-- Rust `<AdaRank as Ranker>::predict` (`src/ensemble/adarank.rs` lines 452-465)
for an ensemble given by parallel lists of weak-ranker feature ids and
weights: the weighted sum of the feature values, a failed feature lookup
contributing `0.0`. -/
def AdaRank.predict_with (rankers : List Nat) (ranker_weights : List K)
    (dp : DataPoint K) : K :=
  (List.zipWith
    (fun fid w =>
      (match dp.get_feature fid with
       | .ok v => v
       | .error _ => 0) * w)
    rankers ranker_weights).sum

/-- The Rust sentinel `usize::MAX` used for `previous_feature` before any
iteration has selected a feature. -/
def USIZE_MAX : Nat := 2 ^ 64 - 1

/-- Mutable state of the `AdaRank` learner (`src/ensemble/adarank.rs` lines
26-109).  The boxed `scorer` trait object is not part of the state: it is
passed to each operation as an explicit function, and the logger is omitted
(pure logging). -/
structure AdaRank (K : Type) where
  training_dataset : List (RankList K)
  validation_dataset : Option (List (RankList K))
  iter : Nat
  max_consecutive_selections : Nat
  consecutive_selections : Nat
  previous_feature : Nat
  tolerance : K
  score_training : K
  score_validation : K
  features : List Nat
  previous_traning_score : K
  previous_validation_score : K
  sample_weights : List K
  ranker_weights : List K
  best_weights : List K
  rankers : List Nat
  best_rankers : List Nat
  used_features : List Nat
  deriving DecidableEq

/-- Rust `AdaRank::initialize_weights` (adarank.rs lines 235-242): a vector of
`len` weights, each `1.0 / len`. -/
def AdaRank.initialize_weights (len : Nat) : List K :=
  List.replicate len (1 / (len : K))

/-- Rust `AdaRank::new` (adarank.rs lines 115-161).  When no explicit feature
subset is given, the candidate features default to
`(1..training_dataset[0].len() + 1)` — note that `training_dataset[0]` is the
first rank list, so its `len()` is its number of data points.  Indexing an
empty dataset panics in Rust; the model reads the head with `headD []` and is
only used on non-empty datasets. -/
def AdaRank.new (training_dataset : List (RankList K)) (iter : Nat)
    (max_consecutive_selections : Nat) (tolerance : K)
    (features : Option (List Nat)) (validation_dataset : Option (List (RankList K))) :
    AdaRank K :=
  { training_dataset := training_dataset
    validation_dataset := validation_dataset
    iter := iter
    max_consecutive_selections := max_consecutive_selections
    consecutive_selections := 0
    previous_feature := USIZE_MAX
    tolerance := tolerance
    score_training := 0
    score_validation := 0
    features :=
      match features with
      | some ft => ft
      | none => List.range' 1 (training_dataset.headD []).length
    previous_traning_score := 0
    previous_validation_score := 0
    sample_weights := AdaRank.initialize_weights training_dataset.length
    ranker_weights := []
    best_weights := []
    rankers := []
    best_rankers := []
    used_features := [] }

/-- Rust `AdaRank::evaluate_weak_ranker` (adarank.rs lines 244-250): rank each
training list with the weak ranker, evaluate the ranked view, and accumulate
`Σ evaluate(list_i) · sample_weights[i]`.  The parallel traversal of the
dataset and the weight vector is a `zipWith` (the source indexes
`sample_weights[i]`, always in range since both have the dataset's length). -/
def AdaRank.evaluate_weak_ranker (scorer : RankList K → K) (st : AdaRank K)
    (feature_id : Nat) : K :=
  (List.zipWith
    (fun sample w => scorer (Ranker.rank (WeakRanker.predict feature_id) sample) * w)
    st.training_dataset st.sample_weights).sum

/-- Rust `AdaRank::select_weak_ranker` (adarank.rs lines 252-273): scan the
candidate features in order, skipping saturated ones; keep the first feature
attaining the strictly largest weighted score, starting from the sentinel
`(-1.0, 0)`; fail (`None`) when the best score stays below `0.0`. -/
def AdaRank.select_weak_ranker (scorer : RankList K → K) (st : AdaRank K) :
    Option Nat :=
  let best := st.features.foldl
    (fun (best : K × Nat) feature =>
      if feature ∈ st.used_features then best
      else
        let score := AdaRank.evaluate_weak_ranker scorer st feature
        if best.1 < score then (score, feature) else best)
    (-1, 0)
  if best.1 < 0 then none else some best.2

/-- Scores of the training lists, each ranked by the selected weak ranker and
evaluated (adarank.rs lines 289-299, the loop computing `num`/`denom`). -/
def AdaRank.weak_scores (scorer : RankList K → K) (st : AdaRank K)
    (feature_id : Nat) : List K :=
  st.training_dataset.map
    (fun rl => scorer (Ranker.rank (WeakRanker.predict feature_id) rl))

/-- The `num` accumulation of adarank.rs lines 287-298: `Σ (1.0 + score) * weight`. -/
def adarank_num (scores weights : List K) : K :=
  (List.zipWith (fun score w => (1 + score) * w) scores weights).sum

/-- The `denom` accumulation of adarank.rs lines 287-298: `Σ (1.0 - score) * weight`. -/
def adarank_denom (scores weights : List K) : K :=
  (List.zipWith (fun score w => (1 - score) * w) scores weights).sum

/-- Rust `amount_to_say` (adarank.rs line 302): `0.5 * (num.abs() / denom.abs()).log10()`,
the base-10 logarithm abstracted as `log10f`. -/
def amount_to_say (log10f : K → K) (num denom : K) : K :=
  (1 / 2) * log10f (|num| / |denom|)

/-- The ensemble weight computed for the feature selected in the current
iteration (adarank.rs lines 286-302). -/
def AdaRank.new_ranker_weight (scorer : RankList K → K) (log10f : K → K)
    (st : AdaRank K) (feature_id : Nat) : K :=
  amount_to_say log10f
    (adarank_num (AdaRank.weak_scores scorer st feature_id) st.sample_weights)
    (adarank_denom (AdaRank.weak_scores scorer st feature_id) st.sample_weights)

/-- Per-list scores of the full ensemble obtained by appending the selected
weak ranker (adarank.rs lines 316-324): each training list is ranked by the
whole ensemble and evaluated. -/
def AdaRank.iteration_scores (scorer : RankList K → K) (log10f : K → K)
    (st : AdaRank K) (feature_id : Nat) : List K :=
  st.training_dataset.map
    (fun rl =>
      scorer (Ranker.rank
        (AdaRank.predict_with (st.rankers ++ [feature_id])
          (st.ranker_weights ++ [AdaRank.new_ranker_weight scorer log10f st feature_id]))
        rl))

/-- The `training_score` of the current iteration (adarank.rs lines 310-326): the
mean of the per-list ensemble scores. -/
def AdaRank.iteration_training_score (scorer : RankList K → K) (log10f : K → K)
    (st : AdaRank K) (feature_id : Nat) : K :=
  (AdaRank.iteration_scores scorer log10f st feature_id).sum
    / (st.training_dataset.length : K)

/-- The `delta` of the current iteration (adarank.rs line 327):
`training_score + tolerance - previous_traning_score`. -/
def AdaRank.iteration_delta (scorer : RankList K → K) (log10f : K → K)
    (st : AdaRank K) (feature_id : Nat) : K :=
  AdaRank.iteration_training_score scorer log10f st feature_id + st.tolerance
    - st.previous_traning_score

/-- Sample reweighting (adarank.rs lines 390-394):
`weight_i *= exp(-amount_to_say * exp_score_i) / total_score`. -/
def AdaRank.update_sample_weights (expf : K → K) (alpha total_score : K)
    (weights exp_scores : List K) : List K :=
  List.zipWith (fun w e => w * expf (-alpha * e) / total_score) weights exp_scores

/-- One iteration of `AdaRank::learn` (adarank.rs lines 276-394).  The result
pairs the updated state with `true` when the loop continues and `false` when
it breaks (failed selection, or `delta <= 0` after removing the just-appended
weak ranker and weight).  The per-iteration effects follow the source order:
append the selected ranker and its weight, evaluate the full ensemble,
update the saturation bookkeeping and `previous_feature`, do the validation
checkpoint (the `it % 1 == 0` guard of the source is always true), then
either roll back and stop (`delta <= 0`) or persist the previous scores and
reweight the samples. -/
def AdaRank.learn_iteration (scorer : RankList K → K) (expf log10f : K → K)
    (st : AdaRank K) : AdaRank K × Bool :=
  match AdaRank.select_weak_ranker scorer st with
  | none => (st, false)
  | some best_feature =>
    let alpha := AdaRank.new_ranker_weight scorer log10f st best_feature
    let rankers' := st.rankers ++ [best_feature]
    let ranker_weights' := st.ranker_weights ++ [alpha]
    let scores := AdaRank.iteration_scores scorer log10f st best_feature
    let exp_scores := scores.map (fun s => expf (-s))
    let total_score := exp_scores.sum
    let delta := AdaRank.iteration_delta scorer log10f st best_feature
    let satur :=
      if st.previous_feature = best_feature then
        if st.consecutive_selections + 1 = st.max_consecutive_selections then
          (0, best_feature :: st.used_features)
        else
          (st.consecutive_selections + 1, st.used_features)
      else
        (st.consecutive_selections, st.used_features)
    let valid : K × K × List Nat × List K :=
      match st.validation_dataset with
      | some vd =>
        if vd.isEmpty then (0, st.score_validation, st.best_rankers, st.best_weights)
        else
          let v :=
            match evaluate_dataset scorer
                (vd.map (Ranker.rank (AdaRank.predict_with rankers' ranker_weights'))) with
            | .ok s => s
            | .error _ => 0
          if st.score_validation < v then (v, v, rankers', ranker_weights')
          else (v, st.score_validation, st.best_rankers, st.best_weights)
      | none => (0, st.score_validation, st.best_rankers, st.best_weights)
    let st' := { st with
      rankers := rankers'
      ranker_weights := ranker_weights'
      consecutive_selections := satur.1
      used_features := satur.2
      previous_feature := best_feature
      score_validation := valid.2.1
      best_rankers := valid.2.2.1
      best_weights := valid.2.2.2 }
    if delta ≤ 0 then
      ({ st' with
          rankers := st'.rankers.dropLast
          ranker_weights := st'.ranker_weights.dropLast }, false)
    else
      ({ st' with
          previous_traning_score := AdaRank.iteration_training_score scorer log10f st best_feature
          previous_validation_score := valid.1
          sample_weights :=
            AdaRank.update_sample_weights expf alpha total_score st.sample_weights exp_scores },
        true)

/-- Rust `AdaRank::learn` (adarank.rs lines 275-395): run up to `fuel` iterations,
stopping early when an iteration reports `false`. -/
def AdaRank.learn (scorer : RankList K → K) (expf log10f : K → K) :
    Nat → AdaRank K → AdaRank K
  | 0, st => st
  | fuel + 1, st =>
    let r := AdaRank.learn_iteration scorer expf log10f st
    if r.2 then AdaRank.learn scorer expf log10f fuel r.1 else r.1

/-- Rust `<AdaRank as Learner>::fit` (adarank.rs lines 399-434): run the training
loop; if a validation checkpoint exists swap it in (via `mem::take`); fail
with `NoRankers` on an empty ensemble; evaluate the ensemble-ranked training
dataset (propagating its error); then evaluate the validation dataset if one
is present (degrading its error to `0.0`), or set the validation score to
`0.0` otherwise. -/
def AdaRank.fit (scorer : RankList K → K) (expf log10f : K → K) (st : AdaRank K) :
    Except LtrError (AdaRank K) :=
  let st1 := AdaRank.learn scorer expf log10f st.iter st
  let st2 :=
    if st1.best_rankers.isEmpty then st1
    else { st1 with
      rankers := st1.best_rankers
      ranker_weights := st1.best_weights
      best_rankers := []
      best_weights := [] }
  if st2.rankers.isEmpty then .error .NoRankers
  else
    match evaluate_dataset scorer
        (st2.training_dataset.map
          (Ranker.rank (AdaRank.predict_with st2.rankers st2.ranker_weights))) with
    | .error e => .error e
    | .ok ts =>
      match st2.validation_dataset with
      | some vd =>
        let vs :=
          match evaluate_dataset scorer
              (vd.map (Ranker.rank (AdaRank.predict_with st2.rankers st2.ranker_weights))) with
          | .ok s => s
          | .error _ => 0
        .ok { st2 with score_training := ts, score_validation := vs }
      | none => .ok { st2 with score_training := ts, score_validation := 0 }

/-- Rust `<AdaRank as Learner>::score` (adarank.rs lines 436-441): `NoRankers`
while the ensemble is empty, otherwise the stored training score. -/
def AdaRank.score (st : AdaRank K) : Except LtrError K :=
  if st.rankers.isEmpty then .error .NoRankers else .ok st.score_training

/-- Rust `<AdaRank as Learner>::validation_score` (adarank.rs lines 443-448):
`NoRankers` while the ensemble is empty, otherwise the stored validation
score. -/
def AdaRank.validation_score (st : AdaRank K) : Except LtrError K :=
  if st.rankers.isEmpty then .error .NoRankers else .ok st.score_validation

/-! ### Definitions following the words of the specification

These definitions transcribe sentences of the specification (not the source)
and are compared with the source-derived definitions above. -/

/-- Following the spec: a permutation vector that is a bijection over
`0..n-1`, i.e. it has length `n`, no duplicates, and every entry below `n`. -/
def spec_is_bijection (p : List Nat) (n : Nat) : Prop :=
  p.length = n ∧ p.Nodup ∧ ∀ i ∈ p, i < n

instance (p : List Nat) (n : Nat) : Decidable (spec_is_bijection p n) := by
  unfold spec_is_bijection; infer_instance

/-- Following the spec: the 1-indexed positions of the relevant items
(`label > 0`), the first listed position being `pos`. -/
def spec_relevant_positions_from (pos : Nat) : List (DataPoint K) → List Nat
  | [] => []
  | dp :: rest =>
    if dp.label > 0 then pos :: spec_relevant_positions_from (pos + 1) rest
    else spec_relevant_positions_from (pos + 1) rest

/-- Following the spec: the sum, over the listed positions, of
`(count of relevant items seen so far) / position`, where `rel` relevant
items were already seen before the first listed position. -/
def spec_prec_sum (rel : Nat) : List Nat → K
  | [] => 0
  | p :: rest => ((rel + 1 : Nat) : K) / (p : K) + spec_prec_sum (rel + 1) rest

/-- Following the claim's words for Mean Average Precision: the mean, over
the 1-indexed positions of relevant items, of (relevant items seen so far ÷
position), with that mean then divided once more by the total relevant
count; `0` when no item is relevant. -/
def spec_map_claimed (rl : RankList K) : K :=
  let ps := spec_relevant_positions_from 1 rl
  if ps.length = 0 then 0
  else (spec_prec_sum 0 ps / (ps.length : K)) / (ps.length : K)

/-- The amended reading of the spec for Mean Average Precision: the sum of
the per-relevant-position precision values divided by the total relevant
count (i.e. their mean), or `0` when no item is relevant. -/
def spec_map_amended (rl : RankList K) : K :=
  let ps := spec_relevant_positions_from 1 rl
  if ps.length = 0 then 0 else spec_prec_sum 0 ps / (ps.length : K)

/-- Following the spec: the default candidate features are all feature
indices present in the first ranked list, 1-indexed — i.e. `1` through the
number of features of its items (read off the first item). -/
def spec_default_features (ds : List (RankList K)) : List Nat :=
  List.range' 1 ((ds.headD []).headD default).features.length

/-! ### Concrete fixtures (over `ℚ`, executable) -/

/-- The MAP evaluator over `ℚ`. -/
def mapQ : RankList ℚ → ℚ := MAP.evaluate_ranklist

/-- Identity on `ℚ`, used to instantiate the abstract `expf`/`log10f`
parameters in witnesses whose conclusions hold for every such function. -/
def idq : ℚ → ℚ := id

/-- A constant negative evaluator over `ℚ` (the `Evaluator` trait is open, so
any function of the ranked list is a legal scorer). -/
def negOneQ : RankList ℚ → ℚ := fun _ => -1

/-- A relevant item (label 1). -/
def dpRel : DataPoint ℚ := ⟨1, 9, [2], none⟩

/-- An irrelevant item (label 0). -/
def dpIrr : DataPoint ℚ := ⟨0, 9, [1], none⟩

/-- An item with three features. -/
def dpThree : DataPoint ℚ := ⟨0, 3, [5, 6, 7], none⟩

/-- A two-element ranked list. -/
def demoPair : RankList ℚ := [dpRel, dpIrr]

/-- A ranked list with two relevant items. -/
def demoRelList : RankList ℚ := [dpRel, dpRel]

/-- A dataset whose first ranked list holds two items of three features. -/
def demoDs2 : List (RankList ℚ) := [[dpThree, dpThree]]

/-- Learner state for the rollback witness: a single one-item list with no
relevant document and zero tolerance, so the first iteration has `delta = 0`. -/
def demoSt6 : AdaRank ℚ := AdaRank.new [[dpIrr]] 1 3 0 none none

/-- Learner state with a zero iteration budget. -/
def demoSt8 : AdaRank ℚ := AdaRank.new [[dpRel]] 0 3 0 none none

/-- Learner state used with the constant negative scorer: selection fails on
the first iteration. -/
def demoSt8neg : AdaRank ℚ := AdaRank.new [[dpRel]] 2 3 0 none none

/-- Learner state for a successful one-iteration fit without a validation
dataset: two one-item lists with no relevant documents and tolerance `1/10`,
so the single iteration has `delta = 1/10 > 0`. -/
def demoSt10 : AdaRank ℚ := AdaRank.new [[dpIrr], [dpIrr]] 1 3 (1 / 10) none none

/-- The state after the single training iteration of `demoSt10`: feature 1 is
selected with ensemble weight `1/2` (`amount_to_say` with the identity in
place of `log10`), the training score `0` is persisted, and the sample
weights are multiplicatively updated (collapsing to `0` here because the
identity stands in for `exp`). -/
def demoSt10After : AdaRank ℚ :=
  { demoSt10 with
    rankers := [1]
    ranker_weights := [1 / 2]
    previous_feature := 1
    previous_traning_score := 0
    previous_validation_score := 0
    sample_weights := [0, 0] }

/-! ### Concrete fixtures over `ℝ` (for the run that exercises `exp`/`log10`) -/

/-- An irrelevant item over `ℝ` for query 1. -/
def dpIrrR1 : DataPoint ℝ := ⟨0, 1, [1], none⟩

/-- An irrelevant item over `ℝ` for query 2. -/
def dpIrrR2 : DataPoint ℝ := ⟨0, 2, [1], none⟩

/-! ### Helper lemmas -/

/-- Folding additions of the per-list scores from an accumulator is the
accumulator plus the sum of the mapped scores. -/
lemma foldl_add_eq_sum (scorer : RankList K → K) :
    ∀ (ds : List (RankList K)) (a : K),
      ds.foldl (fun score ranklist => score + scorer ranklist) a = a + (ds.map scorer).sum := by
  intro ds
  induction ds with
  | nil => intro a; simp
  | cons rl rest ih =>
    intro a
    simp only [List.foldl_cons, List.map_cons, List.sum_cons, ih]
    ring

/-- A `zipWith` of pointwise-nonnegative products has a nonnegative sum. -/
lemma zipWith_sum_nonneg (f : K → K → K) :
    ∀ (l₁ l₂ : List K), (∀ a ∈ l₁, ∀ b ∈ l₂, 0 ≤ f a b) →
      0 ≤ (List.zipWith f l₁ l₂).sum := by
  intro l₁
  induction l₁ with
  | nil => intro l₂ _; simp
  | cons a t₁ ih =>
    intro l₂ h
    cases l₂ with
    | nil => simp
    | cons b t₂ =>
      simp only [List.zipWith_cons_cons, List.sum_cons]
      refine add_nonneg (h a (by simp) b (by simp)) (ih t₂ ?_)
      intro x hx y hy
      exact h x (List.mem_cons_of_mem a hx) y (List.mem_cons_of_mem b hy)

/-- The accumulating loop of `MAP::evaluate_ranklist` computes the number of
relevant items and the accumulated precision sum expressed through the
1-indexed relevant positions. -/
lemma MAP.loop_eq_positions :
    ∀ (rl : List (DataPoint K)) (i rel : Nat) (ap : K),
      MAP.loop rl i rel ap
        = (rel + (spec_relevant_positions_from (i + 1) rl).length,
           ap + spec_prec_sum rel (spec_relevant_positions_from (i + 1) rl)) := by
  intro rl
  induction rl with
  | nil =>
    intro i rel ap
    simp [MAP.loop, spec_relevant_positions_from, spec_prec_sum]
  | cons dp rest ih =>
    intro i rel ap
    by_cases h : dp.label > 0
    · simp only [MAP.loop, spec_relevant_positions_from, if_pos h, ih, List.length_cons,
        spec_prec_sum, Prod.mk.injEq]
      constructor
      · omega
      · push_cast
        ring
    · simp only [MAP.loop, spec_relevant_positions_from, if_neg h, ih]

/-- On an index in range, `get?` returns the `getD` value. -/
lemma get?_eq_some_getD {α : Type} (l : List α) (d : α) (i : Nat) (hi : i < l.length) :
    l.get? i = some (l.getD i d) := by
  cases hc : l.get? i with
  | none => exact absurd (List.get?_eq_none.mp hc) (by omega)
  | some x => simp [List.getD, ← List.get?_eq_getElem?, hc]

/-- The `getElem?` form of `get?_eq_some_getD`. -/
lemma getElem?_eq_some_getD {α : Type} (l : List α) (d : α) (i : Nat) (hi : i < l.length) :
    l[i]? = some (l.getD i d) := by
  rw [← List.get?_eq_getElem?]
  exact get?_eq_some_getD l d i hi

/-- Summing a `zipWith` whose entries all carry the same divisor divides the
sum of the undivided `zipWith`. -/
lemma zipWith_div_sum (f : K → K → K) (c : K) :
    ∀ (l₁ l₂ : List K),
      (List.zipWith (fun a b => f a b / c) l₁ l₂).sum = (List.zipWith f l₁ l₂).sum / c := by
  intro l₁
  induction l₁ with
  | nil => intro l₂; simp
  | cons a t ih =>
    intro l₂
    cases l₂ with
    | nil => simp
    | cons b t₂ =>
      simp only [List.zipWith_cons_cons, List.sum_cons, ih]
      rw [add_div]

/-- Ranking a one-element list leaves it unchanged. -/
lemma rank_singleton (predict : DataPoint K → K) (dp : DataPoint K) :
    Ranker.rank predict [dp] = [dp] := rfl

/-! ### Claims -/

/-- C7: for every evaluator (an arbitrary `evaluate_ranklist` function),
`evaluate_dataset` on the empty dataset fails with an `EvaluationError`, and
on every non-empty dataset returns the arithmetic mean of
`evaluate_ranklist` over its ranked lists. -/
theorem evaluate_dataset_mean_or_error (scorer : RankList K → K)
    (ds : List (RankList K)) :
    evaluate_dataset scorer ([] : List (RankList K))
        = .error (.EvaluationError empty_dataset_msg)
    ∧ (ds ≠ [] →
        evaluate_dataset scorer ds = .ok ((ds.map scorer).sum / (ds.length : K))) := by
  constructor
  · rfl
  · intro h
    unfold evaluate_dataset
    rw [if_neg (by simpa using h), foldl_add_eq_sum scorer ds 0, zero_add]

/-- Witness for C7 at a concrete one-list dataset. -/
theorem evaluate_dataset_mean_or_error_witness :
    (([[dpRel]] : List (RankList ℚ)) ≠ [])
    ∧ evaluate_dataset mapQ [[dpRel]]
        = .ok ((([[dpRel]] : List (RankList ℚ)).map mapQ).sum
            / ((([[dpRel]] : List (RankList ℚ)).length : ℚ))) :=
  ⟨by decide, (evaluate_dataset_mean_or_error mapQ [[dpRel]]).2 (by decide)⟩

/-- C9: `get_feature` rejects index `0` with `FeatureIndexOutOfBounds(0)` and
reads position `i - 1` for a valid index, but `set_feature` with index `0`
panics (the source checks only `index > len`, and the write to
`features[index - 1]` underflows), modelled as `none` — it does not surface
`FeatureIndexOutOfBounds` as the claim states. -/
theorem set_feature_zero_index_panics :
    DataPoint.set_feature dpThree 0 (7 : ℚ) = none
    ∧ DataPoint.get_feature dpThree 0
        = .error (.FeatureIndexOutOfBounds 0)
    ∧ DataPoint.get_feature dpThree 1 = .ok 5
    ∧ DataPoint.set_feature dpThree 0 (7 : ℚ)
        ≠ some (.error (.FeatureIndexOutOfBounds 0)) := by
  refine ⟨rfl, rfl, rfl, ?_⟩
  decide

/-- C2: with candidate features defaulting (`features = None`), the code uses
`1..=len(first rank list)` — the number of data points of the first list —
while the spec prescribes `1..=feature count of its items`; on a dataset
whose first list has 2 items with 3 features each, the code yields `[1, 2]`,
not the specified `[1, 2, 3]`. -/
theorem default_features_use_ranklist_length :
    (AdaRank.new demoDs2 5 3 (0 : ℚ) none none).features = [1, 2]
    ∧ spec_default_features demoDs2 = [1, 2, 3]
    ∧ (AdaRank.new demoDs2 5 3 (0 : ℚ) none none).features
        ≠ spec_default_features demoDs2 := by
  refine ⟨rfl, rfl, ?_⟩
  decide

/-- C3 counterexample: on a list of two relevant items the code returns `1`
(the mean of the precision values), while the claim's "mean divided by the
total relevant count" is `1/2`. -/
theorem map_claimed_double_division_counterexample :
    MAP.evaluate_ranklist demoRelList = 1
    ∧ spec_map_claimed demoRelList = 1 / 2
    ∧ MAP.evaluate_ranklist demoRelList ≠ spec_map_claimed demoRelList := by
  have h1 : MAP.evaluate_ranklist demoRelList = 1 := by
    norm_num [MAP.evaluate_ranklist, MAP.loop, demoRelList, dpRel]
  have h2 : spec_map_claimed demoRelList = 1 / 2 := by
    norm_num [spec_map_claimed, spec_relevant_positions_from, spec_prec_sum, demoRelList, dpRel]
  refine ⟨h1, h2, ?_⟩
  rw [h1, h2]
  norm_num

/-- C3 (amended): the MAP evaluator treats an item as relevant iff its label
is positive and returns the sum, over the 1-indexed positions of relevant
items, of (relevant items seen so far ÷ position), divided once by the total
relevant count — i.e. the mean of those precision values — or `0` when no
item is relevant. -/
theorem map_evaluate_ranklist_amended (rl : RankList K) :
    MAP.evaluate_ranklist rl = spec_map_amended rl := by
  unfold MAP.evaluate_ranklist spec_map_amended
  rw [MAP.loop_eq_positions rl 0 0 0]
  simp

/-- C5 (amended): `permute` succeeds for every permutation vector whose
entries are all in bounds — bijectivity is neither required nor checked —
and then reading index `k` of the result yields the item originally at
`P[k]`; it fails with `RankListIndexOutOfBounds` exactly when some entry is
out of bounds. -/
theorem permute_in_bounds_or_fails (rl : RankList K) (p : List Nat) :
    ((∀ i ∈ p, i < rl.length) →
      ∃ l, RankList.permute rl p = .ok l ∧ l.length = p.length
        ∧ ∀ k, k < p.length → l.get? k = rl.get? (p.getD k 0))
    ∧ ((∃ i ∈ p, rl.length ≤ i) →
      ∃ j ∈ p, rl.length ≤ j
        ∧ RankList.permute rl p = .error (.RankListIndexOutOfBounds j)) := by
  constructor
  · induction p with
    | nil =>
      intro _
      exact ⟨[], rfl, rfl, fun k hk => absurd hk (Nat.not_lt_zero k)⟩
    | cons i rest ih =>
      intro h
      have hi : i < rl.length := h i (by simp)
      obtain ⟨l, hl, hlen, hread⟩ := ih (fun j hj => h j (List.mem_cons_of_mem i hj))
      have hget : rl.get? i = some (rl.getD i default) := get?_eq_some_getD rl default i hi
      have hget2 : rl[i]? = some (rl.getD i default) := getElem?_eq_some_getD rl default i hi
      refine ⟨rl.getD i default :: l, ?_, by simp [hlen], ?_⟩
      · simp only [RankList.permute, hget, hget2, hl, Except.map]
      · intro k hk
        cases k with
        | zero =>
          simp only [List.get?_cons_zero, List.getD_cons_zero]
          exact hget.symm
        | succ k =>
          have hk' : k < rest.length := by simpa using hk
          simpa using hread k hk'
  · induction p with
    | nil =>
      rintro ⟨i, hi, _⟩
      exact absurd hi (by simp)
    | cons i rest ih =>
      rintro ⟨j, hj, hjle⟩
      by_cases hi : i < rl.length
      · have hget : rl.get? i = some (rl.getD i default) := get?_eq_some_getD rl default i hi
        have hget2 : rl[i]? = some (rl.getD i default) := getElem?_eq_some_getD rl default i hi
        have hjr : j ∈ rest := by
          rcases List.mem_cons.mp hj with h1 | h1
          · omega
          · exact h1
        obtain ⟨j', hj', hle', herr⟩ := ih ⟨j, hjr, hjle⟩
        exact ⟨j', List.mem_cons_of_mem i hj', hle',
          by simp only [RankList.permute, hget, hget2, herr, Except.map]⟩
      · have hget : rl.get? i = none := List.get?_eq_none.mpr (by omega)
        have hget2 : rl[i]? = none := by
          rw [← List.get?_eq_getElem?]
          exact List.get?_eq_none.mpr (by omega)
        exact ⟨i, by simp, by omega, by simp only [RankList.permute, hget, hget2]⟩

/-- Witness for C5 at a two-element list, with the in-bounds permutation
`[1, 0]` and the out-of-bounds permutation `[2, 0]`. -/
theorem permute_in_bounds_or_fails_witness :
    (∃ l, RankList.permute demoPair [1, 0] = .ok l ∧ l.length = ([1, 0] : List Nat).length
        ∧ ∀ k, k < ([1, 0] : List Nat).length →
            l.get? k = demoPair.get? (([1, 0] : List Nat).getD k 0))
    ∧ (∃ j ∈ ([2, 0] : List Nat), demoPair.length ≤ j
        ∧ RankList.permute demoPair [2, 0] = .error (.RankListIndexOutOfBounds j)) :=
  ⟨(permute_in_bounds_or_fails demoPair [1, 0]).1 (by decide),
   (permute_in_bounds_or_fails demoPair [2, 0]).2 ⟨2, by decide, by decide⟩⟩

/-- C5 counterexample: the vector `[0, 0]` is not a bijection over the
indices of the two-element list, yet `permute` succeeds (the source only
bound-checks each entry), contradicting the claim that every non-bijective
vector fails with `RankListIndexOutOfBounds`. -/
theorem permute_non_bijective_succeeds :
    ¬ spec_is_bijection [0, 0] demoPair.length
    ∧ RankList.permute demoPair [0, 0] = .ok [dpRel, dpRel] := by
  constructor
  · decide
  · rfl

/-- C1: in the ensemble-weight computation, the code's
`0.5 * (num.abs() / denom.abs()).log10()` equals the claimed
`0.5 * log10(num / denom)` whenever every per-list score lies in `[0, 1]`
(which holds for the repository's evaluators) and every sample weight is
nonnegative (which training maintains): both accumulated sums are then
nonnegative and the absolute values are the identity.  The statement holds
for every base-10 logarithm function `log10f`. -/
theorem amount_to_say_matches_spec (log10f : K → K) (scores weights : List K)
    (hs : ∀ s ∈ scores, 0 ≤ s ∧ s ≤ 1) (hw : ∀ w ∈ weights, 0 ≤ w) :
    amount_to_say log10f (adarank_num scores weights) (adarank_denom scores weights)
      = (1 / 2) * log10f (adarank_num scores weights / adarank_denom scores weights) := by
  have h1 : 0 ≤ adarank_num scores weights := by
    apply zipWith_sum_nonneg
    intro a ha b hb
    exact mul_nonneg (by linarith [(hs a ha).1]) (hw b hb)
  have h2 : 0 ≤ adarank_denom scores weights := by
    apply zipWith_sum_nonneg
    intro a ha b hb
    exact mul_nonneg (by linarith [(hs a ha).2]) (hw b hb)
  unfold amount_to_say
  rw [abs_of_nonneg h1, abs_of_nonneg h2]

/-- Witness for C1 at score `1/2` and weight `1`, with the identity standing
in for the (arbitrary) base-10 logarithm. -/
theorem amount_to_say_matches_spec_witness :
    (∀ s ∈ ([1 / 2] : List ℚ), 0 ≤ s ∧ s ≤ 1)
    ∧ (∀ w ∈ ([1] : List ℚ), 0 ≤ w)
    ∧ amount_to_say idq (adarank_num [1 / 2] [1]) (adarank_denom [1 / 2] [1])
        = (1 / 2) * idq (adarank_num [1 / 2] [1] / adarank_denom [1 / 2] [1]) := by
  have hs : ∀ s ∈ ([1 / 2] : List ℚ), 0 ≤ s ∧ s ≤ 1 := by
    intro s hsm
    rw [List.mem_singleton] at hsm
    subst hsm
    constructor <;> norm_num
  have hw : ∀ w ∈ ([1] : List ℚ), 0 ≤ w := by
    intro w hwm
    rw [List.mem_singleton] at hwm
    subst hwm
    norm_num
  exact ⟨hs, hw, amount_to_say_matches_spec idq [1 / 2] [1] hs hw⟩

/-- C4 (amended): the sample weights sum to `1` right after initialization
(`N > 0` lists each weighted `1/N`), but the multiplicative reweighting step
does not renormalize them: the new sum is
`(Σ weight_i · exp(-α · exp_score_i)) / (Σ exp_score_i)`, which is within
`1e-4` of `1` only in special cases (the counterexample exhibits a training
run reaching `1/2`). -/
theorem sample_weights_sum_amended (n : Nat) (hn : 0 < n) (expf : K → K) (alpha : K)
    (weights exp_scores : List K) :
    (AdaRank.initialize_weights n : List K).sum = 1
    ∧ (AdaRank.update_sample_weights expf alpha exp_scores.sum weights exp_scores).sum
        = (List.zipWith (fun w e => w * expf (-alpha * e)) weights exp_scores).sum
            / exp_scores.sum := by
  constructor
  · rw [AdaRank.initialize_weights, List.sum_replicate, nsmul_eq_mul, mul_one_div,
      div_self (Nat.cast_ne_zero.mpr (by omega))]
  · exact zipWith_div_sum (fun w e => w * expf (-alpha * e)) exp_scores.sum weights exp_scores

/-- Witness for C4's amended statement with two weights and unit exponential
scores. -/
theorem sample_weights_sum_amended_witness :
    (0 < 2)
    ∧ (AdaRank.initialize_weights 2 : List ℚ).sum = 1
    ∧ (AdaRank.update_sample_weights idq 1 ([1, 1] : List ℚ).sum [1 / 2, 1 / 2] [1, 1]).sum
        = (List.zipWith (fun w e => w * idq (-1 * e)) ([1 / 2, 1 / 2] : List ℚ) [1, 1]).sum
            / ([1, 1] : List ℚ).sum :=
  ⟨by norm_num,
   (sample_weights_sum_amended 2 (by norm_num) idq 1 [1 / 2, 1 / 2] [1, 1]).1,
   (sample_weights_sum_amended 2 (by norm_num) idq 1 [1 / 2, 1 / 2] [1, 1]).2⟩

/-- C6: in any training iteration whose selection succeeds, if
`delta = training_score + tolerance - previous_traning_score` is not strictly
positive, the iteration pops the weak ranker and weight it appended, leaving
the ensemble exactly as before the iteration, and reports `false` so that
training stops immediately. -/
theorem delta_rollback_stops_training (scorer : RankList K → K) (expf log10f : K → K)
    (st : AdaRank K) (f : Nat)
    (hsel : AdaRank.select_weak_ranker scorer st = some f)
    (hdelta : AdaRank.iteration_delta scorer log10f st f ≤ 0) :
    (AdaRank.learn_iteration scorer expf log10f st).1.rankers = st.rankers
    ∧ (AdaRank.learn_iteration scorer expf log10f st).1.ranker_weights = st.ranker_weights
    ∧ (AdaRank.learn_iteration scorer expf log10f st).2 = false := by
  unfold AdaRank.learn_iteration
  rw [hsel]
  simp only [if_pos hdelta, List.dropLast_concat]
  exact ⟨trivial, trivial, trivial⟩

/-- A one-element list with an irrelevant item evaluates to `0` under MAP. -/
lemma map_single_irrelevant (dp : DataPoint K) (h : dp.label = 0) :
    MAP.evaluate_ranklist [dp] = 0 := by
  simp [MAP.evaluate_ranklist, MAP.loop, h]

/-- MAP of the singleton `[dpIrr]` over `ℚ`. -/
lemma mapQ_irr : mapQ [dpIrr] = 0 := by
  unfold mapQ
  exact map_single_irrelevant dpIrr rfl

/-- The weak ranker on feature 1 scores `0` on the rollback fixture. -/
lemma eval_weak_demoSt6 : AdaRank.evaluate_weak_ranker mapQ demoSt6 1 = 0 := by
  have h : ∀ pred : DataPoint ℚ → ℚ, mapQ (Ranker.rank pred [dpIrr]) = 0 := by
    intro pred
    rw [rank_singleton, mapQ_irr]
  simp [AdaRank.evaluate_weak_ranker, demoSt6, AdaRank.new, AdaRank.initialize_weights, h]

/-- Selection on the rollback fixture picks feature 1. -/
lemma select_demoSt6 : AdaRank.select_weak_ranker mapQ demoSt6 = some 1 := by
  have hfeat : demoSt6.features = [1] := rfl
  have hused : demoSt6.used_features = [] := rfl
  rw [AdaRank.select_weak_ranker, hfeat, hused]
  norm_num [eval_weak_demoSt6]

/-- The ensemble scores on the rollback fixture are `[0]`. -/
lemma iteration_scores_demoSt6 : AdaRank.iteration_scores mapQ idq demoSt6 1 = [0] := by
  have h : ∀ pred : DataPoint ℚ → ℚ, mapQ (Ranker.rank pred [dpIrr]) = 0 := by
    intro pred
    rw [rank_singleton, mapQ_irr]
  simp [AdaRank.iteration_scores, demoSt6, AdaRank.new, h]

/-- The rollback fixture has `delta = 0`. -/
lemma delta_demoSt6 : AdaRank.iteration_delta mapQ idq demoSt6 1 ≤ 0 := by
  have h0 : AdaRank.iteration_training_score mapQ idq demoSt6 1 = 0 := by
    rw [AdaRank.iteration_training_score, iteration_scores_demoSt6]
    norm_num
  rw [AdaRank.iteration_delta, h0]
  norm_num [demoSt6, AdaRank.new]

/-- Witness for C6 on the rollback fixture: selection succeeds with feature 1,
`delta = 0 ≤ 0`, and the iteration leaves the ensemble unchanged and stops. -/
theorem delta_rollback_stops_training_witness :
    AdaRank.select_weak_ranker mapQ demoSt6 = some 1
    ∧ AdaRank.iteration_delta mapQ idq demoSt6 1 ≤ 0
    ∧ (AdaRank.learn_iteration mapQ idq idq demoSt6).1.rankers = demoSt6.rankers
    ∧ (AdaRank.learn_iteration mapQ idq idq demoSt6).1.ranker_weights = demoSt6.ranker_weights
    ∧ (AdaRank.learn_iteration mapQ idq idq demoSt6).2 = false := by
  obtain ⟨h1, h2, h3⟩ :=
    delta_rollback_stops_training mapQ idq idq demoSt6 1 select_demoSt6 delta_demoSt6
  exact ⟨select_demoSt6, delta_demoSt6, h1, h2, h3⟩

/-- The selection fold keeps a negative best score when every candidate
scores negative. -/
lemma select_fold_neg (scorer : RankList K → K) (st : AdaRank K) :
    ∀ (feats : List Nat) (b : K × Nat),
      (∀ f ∈ feats, AdaRank.evaluate_weak_ranker scorer st f < 0) → b.1 < 0 →
      (feats.foldl
        (fun (best : K × Nat) feature =>
          if feature ∈ st.used_features then best
          else
            if best.1 < AdaRank.evaluate_weak_ranker scorer st feature then
              (AdaRank.evaluate_weak_ranker scorer st feature, feature)
            else best)
        b).1 < 0 := by
  intro feats
  induction feats with
  | nil =>
    intro b _ hb
    simpa using hb
  | cons f rest ih =>
    intro b h hb
    simp only [List.foldl_cons]
    refine ih _ (fun g hg => h g (List.mem_cons_of_mem f hg)) ?_
    by_cases hu : f ∈ st.used_features
    · simpa [hu] using hb
    · by_cases hlt : b.1 < AdaRank.evaluate_weak_ranker scorer st f
      · simpa [hu, hlt] using h f (by simp)
      · simpa [hu, hlt] using hb

/-- When every candidate feature scores negative, selection fails. -/
lemma select_none_of_all_neg (scorer : RankList K → K) (st : AdaRank K)
    (h : ∀ f ∈ st.features, AdaRank.evaluate_weak_ranker scorer st f < 0) :
    AdaRank.select_weak_ranker scorer st = none := by
  unfold AdaRank.select_weak_ranker
  have hneg := select_fold_neg scorer st st.features (-1, 0) h (by norm_num)
  simp only [if_pos hneg]

/-- A failed selection makes the whole training loop a no-op. -/
lemma learn_stops_on_none (scorer : RankList K → K) (expf log10f : K → K)
    (st : AdaRank K) (h : AdaRank.select_weak_ranker scorer st = none) :
    ∀ fuel, AdaRank.learn scorer expf log10f fuel st = st := by
  intro fuel
  cases fuel with
  | zero => rfl
  | succ n => simp [AdaRank.learn, AdaRank.learn_iteration, h]

/-- C8: `fit` fails with `NoRankers` when the iteration budget is `0` and
when every candidate feature scores negative on the first iteration (so no
weak ranker is ever accepted), and both `score` and `validation_score` fail
with `NoRankers` while the ensemble is empty (before a successful fit). -/
theorem fit_no_rankers (scorer : RankList K → K) (expf log10f : K → K)
    (ds : List (RankList K)) (vd : Option (List (RankList K)))
    (T S : Nat) (tol : K) (feats : Option (List Nat)) :
    (T = 0 →
      AdaRank.fit scorer expf log10f (AdaRank.new ds T S tol feats vd)
        = .error .NoRankers)
    ∧ ((∀ f ∈ (AdaRank.new ds T S tol feats vd).features,
          AdaRank.evaluate_weak_ranker scorer (AdaRank.new ds T S tol feats vd) f < 0) →
        AdaRank.fit scorer expf log10f (AdaRank.new ds T S tol feats vd)
          = .error .NoRankers)
    ∧ (∀ st : AdaRank K, st.rankers = [] →
        AdaRank.score st = .error .NoRankers
        ∧ AdaRank.validation_score st = .error .NoRankers) := by
  refine ⟨?_, ?_, ?_⟩
  · intro hT
    subst hT
    rfl
  · intro hneg
    have hsel := select_none_of_all_neg scorer _ hneg
    have hlearn := learn_stops_on_none scorer expf log10f _ hsel
      (AdaRank.new ds T S tol feats vd).iter
    unfold AdaRank.fit
    rw [hlearn]
    rfl
  · intro st hr
    constructor
    · simp [AdaRank.score, hr]
    · simp [AdaRank.validation_score, hr]

/-- Witness for C8: a zero-budget fit, a fit whose only candidate feature
scores `-1` under a constant negative evaluator, and the empty-ensemble
accessors. -/
theorem fit_no_rankers_witness :
    AdaRank.fit mapQ idq idq (AdaRank.new [[dpRel]] 0 3 (0 : ℚ) none none)
      = .error .NoRankers
    ∧ AdaRank.fit negOneQ idq idq demoSt8neg = .error .NoRankers
    ∧ AdaRank.score demoSt8 = .error .NoRankers
    ∧ AdaRank.validation_score demoSt8 = .error .NoRankers := by
  have hneg : ∀ f ∈ (AdaRank.new [[dpRel]] 2 3 (0 : ℚ) none none).features,
      AdaRank.evaluate_weak_ranker negOneQ (AdaRank.new [[dpRel]] 2 3 (0 : ℚ) none none) f < 0 := by
    intro f hf
    have hf1 : f = 1 := by simpa [AdaRank.new] using hf
    subst hf1
    norm_num [AdaRank.evaluate_weak_ranker, AdaRank.new, AdaRank.initialize_weights, negOneQ]
  refine ⟨(fit_no_rankers mapQ idq idq [[dpRel]] none 0 3 0 none).1 rfl,
    (fit_no_rankers negOneQ idq idq [[dpRel]] none 2 3 0 none).2.1 hneg,
    ((fit_no_rankers mapQ idq idq [[dpRel]] none 0 3 0 none).2.2 demoSt8 rfl).1,
    ((fit_no_rankers mapQ idq idq [[dpRel]] none 0 3 0 none).2.2 demoSt8 rfl).2⟩

/-- One training iteration never touches the validation dataset field. -/
lemma learn_iteration_preserves_vd (scorer : RankList K → K) (expf log10f : K → K)
    (st : AdaRank K) :
    (AdaRank.learn_iteration scorer expf log10f st).1.validation_dataset
      = st.validation_dataset := by
  unfold AdaRank.learn_iteration
  cases hsel : AdaRank.select_weak_ranker scorer st with
  | none => rfl
  | some f =>
    simp only []
    split
    · rfl
    · rfl

/-- The training loop never touches the validation dataset field. -/
lemma learn_preserves_vd (scorer : RankList K → K) (expf log10f : K → K) :
    ∀ (fuel : Nat) (st : AdaRank K),
      (AdaRank.learn scorer expf log10f fuel st).validation_dataset
        = st.validation_dataset := by
  intro fuel
  induction fuel with
  | zero => intro st; rfl
  | succ n ih =>
    intro st
    unfold AdaRank.learn
    by_cases h : (AdaRank.learn_iteration scorer expf log10f st).2 = true
    · simp only [h, if_true, if_pos]
      rw [ih, learn_iteration_preserves_vd]
    · simp only [h, if_false, Bool.false_eq_true, ite_false]
      rw [learn_iteration_preserves_vd]

/-- C10: when the learner was constructed without a validation dataset, a
successful `fit` stores `0.0` as the validation score, and
`validation_score` then returns `Ok 0.0` (the ensemble is non-empty after a
successful fit, so the `NoRankers` guard does not fire). -/
theorem fit_without_validation_scores_zero (scorer : RankList K → K)
    (expf log10f : K → K) (st st' : AdaRank K)
    (hvd : st.validation_dataset = none)
    (hfit : AdaRank.fit scorer expf log10f st = .ok st') :
    st'.score_validation = 0 ∧ AdaRank.validation_score st' = .ok 0 := by
  have hvd1 : (AdaRank.learn scorer expf log10f st.iter st).validation_dataset = none := by
    rw [learn_preserves_vd]
    exact hvd
  unfold AdaRank.fit at hfit
  by_cases hb : (AdaRank.learn scorer expf log10f st.iter st).best_rankers.isEmpty = true
  all_goals simp only [hb, if_true, if_false, Bool.false_eq_true, ite_true, ite_false] at hfit
  · -- checkpoint absent: st2 is the learned state itself
    by_cases hr : (AdaRank.learn scorer expf log10f st.iter st).rankers.isEmpty = true
    all_goals
      simp only [hr, if_true, if_false, Bool.false_eq_true, ite_true, ite_false] at hfit
    · exact absurd hfit (by simp)
    · rw [hvd1] at hfit
      cases he : evaluate_dataset scorer
          ((AdaRank.learn scorer expf log10f st.iter st).training_dataset.map
            (Ranker.rank (AdaRank.predict_with
              (AdaRank.learn scorer expf log10f st.iter st).rankers
              (AdaRank.learn scorer expf log10f st.iter st).ranker_weights))) with
      | error e => rw [he] at hfit; exact absurd hfit (by simp)
      | ok ts =>
        rw [he] at hfit
        injection hfit with hst
        subst hst
        refine ⟨rfl, ?_⟩
        simp only [AdaRank.validation_score]
        rw [if_neg (by simpa using hr)]
  · -- checkpoint present: st2 swaps in the best ensemble
    rw [hvd1] at hfit
    cases he : evaluate_dataset scorer
        ((AdaRank.learn scorer expf log10f st.iter st).training_dataset.map
          (Ranker.rank (AdaRank.predict_with
            (AdaRank.learn scorer expf log10f st.iter st).best_rankers
            (AdaRank.learn scorer expf log10f st.iter st).best_weights))) with
    | error e => rw [he] at hfit; exact absurd hfit (by simp)
    | ok ts =>
      rw [he] at hfit
      injection hfit with hst
      subst hst
      refine ⟨rfl, ?_⟩
      simp only [AdaRank.validation_score]
      rw [if_neg (by simpa using hb)]

/-- Any predictor ranks and evaluates the singleton `[dpIrr]` to `0`. -/
lemma mapQ_ranked_irr (pred : DataPoint ℚ → ℚ) : mapQ (Ranker.rank pred [dpIrr]) = 0 := by
  rw [rank_singleton, mapQ_irr]

/-- The weak ranker on feature 1 scores `0` on the fit fixture. -/
lemma eval_weak_demoSt10 : AdaRank.evaluate_weak_ranker mapQ demoSt10 1 = 0 := by
  simp [AdaRank.evaluate_weak_ranker, demoSt10, AdaRank.new, AdaRank.initialize_weights,
    mapQ_ranked_irr]

/-- Selection on the fit fixture picks feature 1. -/
lemma select_demoSt10 : AdaRank.select_weak_ranker mapQ demoSt10 = some 1 := by
  have hfeat : demoSt10.features = [1] := rfl
  have hused : demoSt10.used_features = [] := rfl
  rw [AdaRank.select_weak_ranker, hfeat, hused]
  norm_num [eval_weak_demoSt10]

/-- Weak-ranker scores of the fit fixture. -/
lemma weak_scores_demoSt10 : AdaRank.weak_scores mapQ demoSt10 1 = [0, 0] := by
  simp [AdaRank.weak_scores, demoSt10, AdaRank.new, mapQ_ranked_irr]

/-- Sample weights of the fit fixture. -/
lemma sample_weights_demoSt10 : demoSt10.sample_weights = [1 / 2, 1 / 2] := by
  simp [demoSt10, AdaRank.new, AdaRank.initialize_weights, List.replicate]

/-- Ensemble weight of the selected feature on the fit fixture: `num = 1`,
`denom = 1`, and `0.5 * idq (|1| / |1|) = 1/2`. -/
lemma alpha_demoSt10 : AdaRank.new_ranker_weight mapQ idq demoSt10 1 = 1 / 2 := by
  rw [AdaRank.new_ranker_weight, weak_scores_demoSt10, sample_weights_demoSt10]
  norm_num [adarank_num, adarank_denom, amount_to_say, idq]

/-- Full-ensemble scores of the fit fixture. -/
lemma iteration_scores_demoSt10 : AdaRank.iteration_scores mapQ idq demoSt10 1 = [0, 0] := by
  simp [AdaRank.iteration_scores, demoSt10, AdaRank.new, mapQ_ranked_irr]

/-- Training score of the fit fixture's iteration. -/
lemma ts_demoSt10 : AdaRank.iteration_training_score mapQ idq demoSt10 1 = 0 := by
  rw [AdaRank.iteration_training_score, iteration_scores_demoSt10]
  norm_num

/-- The fit fixture's iteration has `delta = 1/10 > 0`. -/
lemma delta_demoSt10 : ¬ AdaRank.iteration_delta mapQ idq demoSt10 1 ≤ 0 := by
  rw [AdaRank.iteration_delta, ts_demoSt10]
  norm_num [demoSt10, AdaRank.new]

/-- The single training iteration of the fit fixture. -/
lemma learn_iteration_demoSt10 :
    AdaRank.learn_iteration mapQ idq idq demoSt10 = (demoSt10After, true) := by
  unfold AdaRank.learn_iteration
  rw [select_demoSt10]
  simp only [alpha_demoSt10, iteration_scores_demoSt10, ts_demoSt10]
  rw [if_neg delta_demoSt10]
  have hprev : ¬ demoSt10.previous_feature = 1 := by decide
  have hvd : demoSt10.validation_dataset = none := rfl
  simp only [hvd, if_neg hprev, ite_false]
  norm_num [demoSt10After, demoSt10, AdaRank.new, AdaRank.initialize_weights,
    AdaRank.update_sample_weights, idq, Prod.mk.injEq, List.replicate]

/-- The full fit of the fit fixture succeeds and returns the post-iteration
state (final training and validation scores both `0`). -/
lemma fit_demoSt10 : AdaRank.fit mapQ idq idq demoSt10 = .ok demoSt10After := by
  have hlearn : AdaRank.learn mapQ idq idq demoSt10.iter demoSt10 = demoSt10After := by
    have h1 : demoSt10.iter = 1 := rfl
    rw [h1]
    unfold AdaRank.learn
    rw [learn_iteration_demoSt10]
    rfl
  have heval : evaluate_dataset mapQ
      (demoSt10After.training_dataset.map
        (Ranker.rank (AdaRank.predict_with demoSt10After.rankers demoSt10After.ranker_weights)))
      = .ok 0 := by
    have htr : demoSt10After.training_dataset = [[dpIrr], [dpIrr]] := rfl
    rw [htr]
    simp [evaluate_dataset, mapQ_ranked_irr]
  unfold AdaRank.fit
  rw [hlearn]
  have hbest : demoSt10After.best_rankers.isEmpty = true := rfl
  simp only [hbest, ite_true, if_true]
  have hrank : demoSt10After.rankers.isEmpty = false := rfl
  simp only [hrank, Bool.false_eq_true, ite_false, if_false]
  rw [heval]
  have hvd : demoSt10After.validation_dataset = none := rfl
  simp only [hvd]
  rfl

/-- Witness for C10: the fit fixture has no validation dataset, its fit
succeeds, and the final validation score is `Ok 0`. -/
theorem fit_without_validation_scores_zero_witness :
    demoSt10.validation_dataset = none
    ∧ AdaRank.fit mapQ idq idq demoSt10 = .ok demoSt10After
    ∧ demoSt10After.score_validation = 0
    ∧ AdaRank.validation_score demoSt10After = .ok 0 :=
  ⟨rfl, fit_demoSt10,
   (fit_without_validation_scores_zero mapQ idq idq demoSt10 demoSt10After rfl fit_demoSt10).1,
   (fit_without_validation_scores_zero mapQ idq idq demoSt10 demoSt10After rfl fit_demoSt10).2⟩

/-- Any predictor ranks and evaluates the singleton real-valued lists of the
counterexample fixture to `0`. -/
lemma mapR_ranked_irr1 (pred : DataPoint ℝ → ℝ) :
    MAP.evaluate_ranklist (Ranker.rank pred [dpIrrR1]) = 0 := by
  rw [rank_singleton]
  exact map_single_irrelevant dpIrrR1 rfl

/-- Same for the second list. -/
lemma mapR_ranked_irr2 (pred : DataPoint ℝ → ℝ) :
    MAP.evaluate_ranklist (Ranker.rank pred [dpIrrR2]) = 0 := by
  rw [rank_singleton]
  exact map_single_irrelevant dpIrrR2 rfl

/-- The weak ranker on feature 1 scores `0` on the real counterexample
fixture. -/
lemma eval_weak_R :
    AdaRank.evaluate_weak_ranker MAP.evaluate_ranklist
      (AdaRank.new [[dpIrrR1], [dpIrrR2]] 1 3 (1 / 10) none none) 1 = 0 := by
  simp [AdaRank.evaluate_weak_ranker, AdaRank.new, AdaRank.initialize_weights,
    mapR_ranked_irr1, mapR_ranked_irr2]

/-- Selection picks feature 1 on the real counterexample fixture. -/
lemma select_R :
    AdaRank.select_weak_ranker MAP.evaluate_ranklist
      (AdaRank.new [[dpIrrR1], [dpIrrR2]] 1 3 (1 / 10) none none) = some 1 := by
  have hfeat : (AdaRank.new [[dpIrrR1], [dpIrrR2]] (1 : Nat) 3 ((1 : ℝ) / 10) none none).features
      = [1] := rfl
  have hused :
      (AdaRank.new [[dpIrrR1], [dpIrrR2]] (1 : Nat) 3 ((1 : ℝ) / 10) none none).used_features
      = [] := rfl
  rw [AdaRank.select_weak_ranker, hfeat, hused]
  norm_num [eval_weak_R]

/-- Weak-ranker scores on the real counterexample fixture. -/
lemma weak_scores_R :
    AdaRank.weak_scores MAP.evaluate_ranklist
      (AdaRank.new [[dpIrrR1], [dpIrrR2]] 1 3 (1 / 10) none none) 1 = [0, 0] := by
  simp [AdaRank.weak_scores, AdaRank.new, mapR_ranked_irr1, mapR_ranked_irr2]

/-- Sample weights of the real counterexample fixture. -/
lemma sample_weights_R :
    (AdaRank.new [[dpIrrR1], [dpIrrR2]] (1 : Nat) 3 ((1 : ℝ) / 10) none none).sample_weights
      = [1 / 2, 1 / 2] := by
  simp [AdaRank.new, AdaRank.initialize_weights, List.replicate]

/-- The ensemble weight is `0.5 * log10(|1| / |1|) = 0` on the real
counterexample fixture, using the genuine base-10 logarithm. -/
lemma alpha_R :
    AdaRank.new_ranker_weight MAP.evaluate_ranklist (Real.logb 10)
      (AdaRank.new [[dpIrrR1], [dpIrrR2]] 1 3 (1 / 10) none none) 1 = 0 := by
  rw [AdaRank.new_ranker_weight, weak_scores_R, sample_weights_R]
  norm_num [adarank_num, adarank_denom, amount_to_say, Real.logb_one]

/-- Full-ensemble scores on the real counterexample fixture. -/
lemma iteration_scores_R :
    AdaRank.iteration_scores MAP.evaluate_ranklist (Real.logb 10)
      (AdaRank.new [[dpIrrR1], [dpIrrR2]] 1 3 (1 / 10) none none) 1 = [0, 0] := by
  simp [AdaRank.iteration_scores, AdaRank.new, mapR_ranked_irr1, mapR_ranked_irr2]

/-- Training score `0` on the real counterexample fixture. -/
lemma ts_R :
    AdaRank.iteration_training_score MAP.evaluate_ranklist (Real.logb 10)
      (AdaRank.new [[dpIrrR1], [dpIrrR2]] 1 3 (1 / 10) none none) 1 = 0 := by
  rw [AdaRank.iteration_training_score, iteration_scores_R]
  norm_num

/-- The iteration has `delta = 1/10 > 0` on the real counterexample fixture. -/
lemma delta_R :
    ¬ AdaRank.iteration_delta MAP.evaluate_ranklist (Real.logb 10)
      (AdaRank.new [[dpIrrR1], [dpIrrR2]] 1 3 (1 / 10) none none) 1 ≤ 0 := by
  rw [AdaRank.iteration_delta, ts_R]
  norm_num [AdaRank.new]

/-- C4 counterexample: a genuine training iteration (MAP evaluator, the real
`exp` and `log10`) on two one-item lists with no relevant documents.  The
iteration continues (`delta = 1/10 > 0`) and reweights the samples, after
which the sample weights sum to `1/2`: each weight `1/2` is multiplied by
`exp(-0 · 1) / total_score = 1/2`, since `total_score = Σ exp(-0) = 2` — the
update does not renormalize the weights, so the claimed invariant
`Σ sample_weights ≈ 1` (tolerance `1e-4`) fails. -/
theorem reweighting_sum_counterexample :
    (AdaRank.learn_iteration MAP.evaluate_ranklist Real.exp (Real.logb 10)
        (AdaRank.new [[dpIrrR1], [dpIrrR2]] 1 3 (1 / 10) none none)).2 = true
    ∧ (AdaRank.learn_iteration MAP.evaluate_ranklist Real.exp (Real.logb 10)
        (AdaRank.new [[dpIrrR1], [dpIrrR2]] 1 3 (1 / 10) none none)).1.sample_weights.sum
      = 1 / 2
    ∧ ¬ |(AdaRank.learn_iteration MAP.evaluate_ranklist Real.exp (Real.logb 10)
          (AdaRank.new [[dpIrrR1], [dpIrrR2]] 1 3 (1 / 10) none none)).1.sample_weights.sum
            - 1| ≤ 1 / 10000 := by
  have hprev : ¬ (AdaRank.new [[dpIrrR1], [dpIrrR2]] (1 : Nat) 3
      ((1 : ℝ) / 10) none none).previous_feature = 1 := by decide
  have hvd : (AdaRank.new [[dpIrrR1], [dpIrrR2]] (1 : Nat) 3
      ((1 : ℝ) / 10) none none).validation_dataset = none := rfl
  have hit : (AdaRank.learn_iteration MAP.evaluate_ranklist Real.exp (Real.logb 10)
        (AdaRank.new [[dpIrrR1], [dpIrrR2]] 1 3 (1 / 10) none none)).2 = true
      ∧ (AdaRank.learn_iteration MAP.evaluate_ranklist Real.exp (Real.logb 10)
        (AdaRank.new [[dpIrrR1], [dpIrrR2]] 1 3 (1 / 10) none none)).1.sample_weights
        = [1 / 4, 1 / 4] := by
    unfold AdaRank.learn_iteration
    rw [select_R]
    simp only [alpha_R, iteration_scores_R, ts_R]
    rw [if_neg delta_R]
    simp only [hvd, if_neg hprev]
    constructor
    · trivial
    · rw [sample_weights_R]
      norm_num [AdaRank.update_sample_weights, Real.exp_zero]
  obtain ⟨h2, hw⟩ := hit
  have hsum : (AdaRank.learn_iteration MAP.evaluate_ranklist Real.exp (Real.logb 10)
        (AdaRank.new [[dpIrrR1], [dpIrrR2]] 1 3 (1 / 10) none none)).1.sample_weights.sum
      = 1 / 2 := by
    rw [hw]
    norm_num
  refine ⟨h2, hsum, ?_⟩
  rw [hsum]
  have habs : |(1 : ℝ) / 2 - 1| = 1 / 2 := by
    rw [abs_sub_comm]
    norm_num
  rw [habs]
  norm_num

end Adarank
